import Mathlib

/-!
Verification of the real-time collaboration subsystem of the markd-deploy
repository: presence tracking (`src/backend/collaborative.py`), advisory
document locks and their Socket.IO broadcasts (`src/backend/main.py`), and the
AI-agent streaming sessions (`src/backend/collaborative.py`).

Python dictionaries are modelled as insertion-ordered association lists with
in-place update (matching CPython dict semantics); the SQL `document_locks`
table is modelled as a list of rows keyed by document id; timestamps are
integers (minutes for the lock table, whose timeout constant is in minutes).
-/

namespace Markd

/-- Association-list lookup mirroring Python `d[k]` / `k in d`: first matching
key wins. -/
def dlookup {α : Type} (k : String) : List (String × α) → Option α
  | [] => none
  | e :: rest => if e.1 = k then some e.2 else dlookup k rest

/-- Association-list write mirroring Python `d[k] = v`: replaces the value in
place when the key is present (a dict keeps the original slot), otherwise
appends at the end (dict insertion order). -/
def dinsert {α : Type} (k : String) (v : α) : List (String × α) → List (String × α)
  | [] => [(k, v)]
  | e :: rest => if e.1 = k then (k, v) :: rest else e :: dinsert k v rest

/-- Association-list delete mirroring Python `del d[k]`: removes the first
matching entry. -/
def derase {α : Type} (k : String) : List (String × α) → List (String × α)
  | [] => []
  | e :: rest => if e.1 = k then rest else e :: derase k rest

/-- One `sio.emit` call. `room = none` models an emit with the `room` argument
omitted (delivery to every connected client); `room = some r` models a
room-scoped emit. `document_id` is the document referenced in the payload, and
`locked_by` is the holder user id carried by a `lock_updated` payload
(`none` both when the field is null and for non-lock events). -/
structure Emit where
  event : String
  room : Option String
  document_id : String
  locked_by : Option String := none
  deriving DecidableEq, Repr

/-- Room name used by all collaborative.py broadcasts for a document. -/
def doc_room (document_id : String) : String := "doc_" ++ document_id

/-! ## Lock management (`src/backend/main.py`) -/

/-- LOCK_TIMEOUT_MINUTES (main.py line 25). Lock timestamps are modelled in
minutes. -/
def LOCK_TIMEOUT_MINUTES : Int := 30

/-- A row of the `document_locks` table. -/
structure LockRow where
  user_id : String
  user_name : String
  locked_at : Int
  deriving DecidableEq, Repr

/-- The `document_locks` table: rows tagged with their `document_id` column. -/
abbrev LockTable := List (String × LockRow)

/-- Model of `SELECT ... FROM document_locks WHERE document_id = d`. -/
def selectLocks (d : String) : LockTable → List LockRow
  | [] => []
  | e :: t => if e.1 = d then e.2 :: selectLocks d t else selectLocks d t

/-- Model of `DELETE FROM document_locks WHERE document_id = d`. -/
def deleteLocks (d : String) : LockTable → LockTable
  | [] => []
  | e :: t => if e.1 = d then deleteLocks d t else e :: deleteLocks d t

/-- Model of `UPDATE document_locks SET locked_at = NOW() WHERE document_id = d`. -/
def touchLocks (d : String) (now : Int) : LockTable → LockTable
  | [] => []
  | e :: t => (if e.1 = d then (e.1, { e.2 with locked_at := now }) else e) :: touchLocks d now t

/-- Model of `DELETE FROM document_locks WHERE document_id = d AND user_id = u`. -/
def deleteUserLocks (d u : String) : LockTable → LockTable
  | [] => []
  | e :: t =>
    if e.1 = d ∧ e.2.user_id = u then deleteUserLocks d u t else e :: deleteUserLocks d u t

/-- Number of rows affected by `deleteUserLocks`. -/
def countUserLocks (d u : String) : LockTable → Nat
  | [] => 0
  | e :: t => (if e.1 = d ∧ e.2.user_id = u then 1 else 0) + countUserLocks d u t

/-- Outcome of the `POST /api/documents/.../lock` endpoint: `acquired` is the
"Document locked" response, `refreshed` the "Lock refreshed" response, and
`conflict` the "Document already locked" response carrying the existing row. -/
inductive LockResult where
  | acquired
  | refreshed
  | conflict (locked_by : LockRow)
  deriving DecidableEq, Repr

/-- Function `broadcast_lock_update` (main.py line 394): a single `sio.emit`
of event `lock_updated` with NO `room` argument, so it reaches every connected
client. -/
def broadcast_lock_update (document_id : String) (lock_info : Option String) : Emit :=
  { event := "lock_updated", room := none, document_id := document_id, locked_by := lock_info }

/-- Endpoint `lock_document` (main.py line 1258). If a row exists and
`now - locked_at > LOCK_TIMEOUT_MINUTES` the stale row is deleted and a fresh
lock is created (with broadcast); else a different holder gets a conflict; else
the same holder gets its timestamp refreshed with no broadcast; with no row a
fresh lock is created (with broadcast). -/
def lock_document (t : LockTable) (document_id user_id user_name : String) (now : Int) :
    LockResult × LockTable × List Emit :=
  match selectLocks document_id t with
  | existing :: _ =>
    if now - existing.locked_at > LOCK_TIMEOUT_MINUTES then
      (LockResult.acquired,
       deleteLocks document_id t ++ [(document_id, ⟨user_id, user_name, now⟩)],
       [broadcast_lock_update document_id (some user_id)])
    else if existing.user_id ≠ user_id then
      (LockResult.conflict existing, t, [])
    else
      (LockResult.refreshed, touchLocks document_id now t, [])
  | [] =>
    (LockResult.acquired,
     t ++ [(document_id, ⟨user_id, user_name, now⟩)],
     [broadcast_lock_update document_id (some user_id)])

/-- Outcome of the heartbeat endpoint. -/
inductive HeartbeatResult where
  | ok
  | notLocked
  | notHolder
  deriving DecidableEq, Repr

/-- Endpoint `heartbeat_document` (main.py line 1304): checks only existence
and ownership of the lock row, never its age, then sets `locked_at = NOW()`. -/
def heartbeat_document (t : LockTable) (document_id user_id : String) (now : Int) :
    HeartbeatResult × LockTable :=
  match selectLocks document_id t with
  | [] => (HeartbeatResult.notLocked, t)
  | existing :: _ =>
    if existing.user_id ≠ user_id then (HeartbeatResult.notHolder, t)
    else (HeartbeatResult.ok, touchLocks document_id now t)

/-- Endpoint `unlock_document` (main.py line 1327): deletes the row matching
both document and user; failure ("Lock not found or not owned by user") when no
row was affected, otherwise a room-less `lock_updated` broadcast with null
holder. -/
def unlock_document (t : LockTable) (document_id user_id : String) :
    Bool × LockTable × List Emit :=
  if countUserLocks document_id user_id t = 0 then
    (false, deleteUserLocks document_id user_id t, [])
  else
    (true, deleteUserLocks document_id user_id t, [broadcast_lock_update document_id none])

/-- Endpoint `force_unlock_document` (main.py line 1397): deletes any lock row
for the document regardless of holder; when no row was affected it returns
failure ("Document was not locked") and broadcasts nothing. -/
def force_unlock_document (t : LockTable) (document_id : String) :
    Bool × LockTable × List Emit :=
  if (selectLocks document_id t).length = 0 then
    (false, deleteLocks document_id t, [])
  else
    (true, deleteLocks document_id t, [broadcast_lock_update document_id none])

/-! ## Presence (`src/backend/collaborative.py`) -/

/-- USER_COLORS palette (collaborative.py line 90). -/
def USER_COLORS : List String :=
  ["#e6194b", "#3cb44b", "#4363d8", "#f58231", "#911eb4", "#c71585", "#f032e6",
   "#469990", "#9a6324", "#800000", "#808000", "#000075", "#808080", "#d63384",
   "#0d6efd", "#198754", "#6f42c1", "#dc3545", "#0dcaf0", "#fd7e14"]

/-- AGENT_COLORS dict lookup with its `default` fallback (collaborative.py
line 114). -/
def AGENT_COLORS (key : String) : String :=
  if key = "cursor" then "#A855F7"
  else if key = "claude" then "#FF6B35"
  else if key = "windsurf" then "#00D4FF"
  else if key = "copilot" then "#24292E"
  else "#9333EA"

/-- ASCII lower-casing standing in for Python `str.lower` (agent names in the
color table are ASCII). -/
def lowerStr (s : String) : String := s.map Char.toLower

/-- Dataclass `UserPresence` (collaborative.py line 23). `last_activity` is an
integer timestamp. -/
structure UserPresence where
  user_id : String
  username : String
  color : String
  is_agent : Bool := false
  agent_name : Option String := none
  cursor_position : Option Int := none
  cursor_line : Option Int := none
  cursor_column : Option Int := none
  selection_start : Option Int := none
  selection_end : Option Int := none
  last_activity : Int := 0
  deriving DecidableEq, Repr

/-- The module-level mutable dicts of collaborative.py: `document_presence`
(document id to per-connection presence) and `document_color_index` (document
id to next round-robin color index). -/
structure CollabState where
  document_presence : List (String × List (String × UserPresence)) := []
  document_color_index : List (String × Nat) := []
  deriving DecidableEq, Repr

/-- The scan inside `get_user_color`: first presence entry of the document with
the given `user_id` (iteration in dict insertion order), ignoring `is_agent`. -/
def findUserColor (user_id : String) : List (String × UserPresence) → Option String
  | [] => none
  | e :: rest => if e.2.user_id = user_id then some e.2.color else findUserColor user_id rest

/-- Round-robin arm of `get_user_color`: index defaults to 0 when the document
is absent, the color is `USER_COLORS[index mod 20]`, and the stored index is
incremented. -/
def assignNextColor (st : CollabState) (document_id : String) : String × CollabState :=
  let v := (dlookup document_id st.document_color_index).getD 0
  (USER_COLORS.getD (v % USER_COLORS.length) "",
   { st with document_color_index := dinsert document_id (v + 1) st.document_color_index })

/-- Function `get_user_color` (collaborative.py line 126). An agent with a
non-empty `agent_name` gets the fixed AGENT_COLORS entry for the lower-cased
name; otherwise a presence entry with the same `user_id` keeps its color, and
failing that the round-robin assigns the next palette color. -/
def get_user_color (st : CollabState) (document_id user_id : String)
    (is_agent : Bool) (agent_name : Option String) : String × CollabState :=
  if is_agent ∧ agent_name.getD "" ≠ "" then
    (AGENT_COLORS (lowerStr (agent_name.getD "")), st)
  else
    match dlookup document_id st.document_presence with
    | some roster =>
      match findUserColor user_id roster with
      | some c => (c, st)
      | none => assignNextColor st document_id
    | none => assignNextColor st document_id

/-- Function `leave_document` (collaborative.py line 211): removes the
connection's entry if present; when the roster becomes empty the document is
dropped from both `document_presence` and `document_color_index`; broadcasts
`presence:leave` then `presence_updated` to room `doc_<id>`. No-op when the
connection is not present. -/
def leave_document (st : CollabState) (sid document_id : String) :
    CollabState × List Emit :=
  match dlookup document_id st.document_presence with
  | none => (st, [])
  | some roster =>
    match dlookup sid roster with
    | none => (st, [])
    | some _ =>
      let roster2 := derase sid roster
      let st2 :=
        if roster2.isEmpty then
          { st with
            document_presence := derase document_id st.document_presence,
            document_color_index := derase document_id st.document_color_index }
        else
          { st with document_presence := dinsert document_id roster2 st.document_presence }
      (st2,
       [{ event := "presence:leave", room := some (doc_room document_id),
          document_id := document_id },
        { event := "presence_updated", room := some (doc_room document_id),
          document_id := document_id }])

/-- Dedup key used by `get_deduplicated_users`: `user_id` for web users and
`user_id ++ "_agent"` for agents. -/
def dedup_key (p : UserPresence) : String :=
  if p.is_agent then p.user_id ++ "_agent" else p.user_id

/-- Function `get_deduplicated_users` (collaborative.py line 295): folds the
roster in insertion order into a dict keyed by `dedup_key`, so the most
recently added entry wins per `(user_id, is_agent)` key, then lists the
values. -/
def get_deduplicated_users (st : CollabState) (document_id : String) : List UserPresence :=
  match dlookup document_id st.document_presence with
  | none => []
  | some roster =>
    (roster.foldl (fun acc e => dinsert (dedup_key e.2) e.2 acc)
      ([] : List (String × UserPresence))).map (·.2)

/-- Function `join_document` (collaborative.py line 150). The document dict is
created if absent; every existing connection with the same `user_id` (the
comparison ignores `is_agent`) and a different sid is evicted via
`leave_document`; then a color is assigned and the new entry stored. When the
evictions emptied the roster, `leave_document` deleted the document key, and
the Python statement `document_presence[document_id][sid] = presence` raises
KeyError: this is modelled by a `none` first component, keeping the mutations
(evictions and color-index bump) performed before the raise, as the Python
globals do. On success the deduplicated roster is returned and
`presence:join` then `presence_updated` are broadcast to room `doc_<id>`. -/
def join_document (st : CollabState) (sid document_id user_id username : String)
    (is_agent : Bool) (agent_name : Option String) (now : Int) :
    Option (List UserPresence) × CollabState × List Emit :=
  let st0 :=
    if (dlookup document_id st.document_presence).isNone then
      { st with document_presence := dinsert document_id [] st.document_presence }
    else st
  let roster := (dlookup document_id st0.document_presence).getD []
  let sids_to_remove :=
    (roster.filter (fun e => e.2.user_id == user_id && e.1 != sid)).map (·.1)
  let evict := sids_to_remove.foldl
    (fun acc old_sid =>
      let r := leave_document acc.1 old_sid document_id
      (r.1, acc.2 ++ r.2))
    (st0, ([] : List Emit))
  let cr := get_user_color evict.1 document_id user_id is_agent agent_name
  match dlookup document_id cr.2.document_presence with
  | none => (none, cr.2, evict.2)
  | some roster2 =>
    let presence : UserPresence :=
      { user_id := user_id, username := username, color := cr.1,
        is_agent := is_agent, agent_name := agent_name, last_activity := now }
    let st3 := { cr.2 with
      document_presence := dinsert document_id (dinsert sid presence roster2)
        cr.2.document_presence }
    (some (get_deduplicated_users st3 document_id), st3,
     evict.2 ++
      [{ event := "presence:join", room := some (doc_room document_id),
         document_id := document_id },
       { event := "presence_updated", room := some (doc_room document_id),
         document_id := document_id }])

/-- Function `leave_all_documents` (collaborative.py line 249): applies
`leave_document` to every document where the connection has an entry. Defined
in the source but never invoked by any handler. -/
def leave_all_documents (st : CollabState) (sid : String) : CollabState × List Emit :=
  let docs := (st.document_presence.filter (fun e => (dlookup sid e.2).isSome)).map (·.1)
  docs.foldl (fun acc d =>
    let r := leave_document acc.1 sid d
    (r.1, acc.2 ++ r.2)) (st, ([] : List Emit))

/-! ## Streaming sessions (`src/backend/collaborative.py`) -/

/-- Dataclass `StreamingSession` (collaborative.py line 54). -/
structure StreamingSession where
  session_id : String
  document_id : String
  user_id : String
  username : String
  agent_name : String
  start_position : Int
  current_position : Int
  started_at : Int := 0
  is_active : Bool := true
  deriving DecidableEq, Repr

/-- The module-level `streaming_sessions` dict, modelled as a partial map from
session id to session (a dict has at most one value per key). -/
abbrev Sessions := String → Option StreamingSession

/-- Function `start_streaming` (collaborative.py line 347). The uuid4 the code
generates is taken as the `session_id` argument. Broadcasts `stream:start` to
the document room. -/
def start_streaming (ss : Sessions)
    (session_id document_id user_id username agent_name : String)
    (start_position now : Int) : String × Sessions × List Emit :=
  let s : StreamingSession :=
    { session_id := session_id, document_id := document_id, user_id := user_id,
      username := username, agent_name := agent_name,
      start_position := start_position, current_position := start_position,
      started_at := now, is_active := true }
  (session_id,
   fun k => if k = session_id then some s else ss k,
   [{ event := "stream:start", room := some (doc_room document_id),
      document_id := document_id }])

/-- Function `stream_chunk` (collaborative.py line 385): fails (returns false)
when the session id is unknown or the session is not active; otherwise the
position is set to the explicit `position` argument if given, else advanced by
the chunk length, and `stream:chunk` is broadcast to the document room. -/
def stream_chunk (ss : Sessions) (session_id text : String) (position : Option Int) :
    Bool × Sessions × List Emit :=
  match ss session_id with
  | none => (false, ss, [])
  | some s =>
    if s.is_active then
      let newpos :=
        match position with
        | some p => p
        | none => s.current_position + (text.length : Int)
      (true,
       fun k => if k = session_id then some { s with current_position := newpos } else ss k,
       [{ event := "stream:chunk", room := some (doc_room s.document_id),
          document_id := s.document_id }])
    else (false, ss, [])

/-- Function `end_streaming` (collaborative.py line 414): fails when the
session id is unknown; otherwise marks the session inactive (keeping it in the
table), broadcasts `stream:end` to the document room, and schedules
`purge_session` to run after the 5 second grace period. -/
def end_streaming (ss : Sessions) (session_id : String) : Bool × Sessions × List Emit :=
  match ss session_id with
  | none => (false, ss, [])
  | some s =>
    (true,
     fun k => if k = session_id then some { s with is_active := false } else ss k,
     [{ event := "stream:end", room := some (doc_room s.document_id),
        document_id := s.document_id }])

/-- The delayed `cleanup` task created by `end_streaming`: after the 5 second
grace period the session id is deleted from the table. -/
def purge_session (ss : Sessions) (session_id : String) : Sessions :=
  fun k => if k = session_id then none else ss k

/-! ## Transport disconnect (`src/backend/main.py`) -/

/-- The process state touched by the disconnect handler: the collaborative
presence dicts and the `document_locks` table. -/
structure SystemState where
  collab : CollabState
  document_locks : LockTable

/-- The Socket.IO `disconnect` handler that is effectively registered
(main.py line 1706; a second registration under the same event name replaces
the earlier handler at line 411). It only deletes lock rows with
`locked_at < now - LOCK_TIMEOUT_MINUTES` from the lock tables; the
disconnecting sid is not used, no presence entry is removed, and
`leave_all_documents` is not called. -/
def disconnect (s : SystemState) (sid : String) (now : Int) : SystemState :=
  let keep := fun (r : String × LockRow) => decide (¬ r.2.locked_at < now - LOCK_TIMEOUT_MINUTES)
  { s with document_locks := s.document_locks.filter keep }

/-! ## Lock-table lemmas -/

theorem selectLocks_append_self (d : String) (row : LockRow) (t : LockTable) :
    selectLocks d (t ++ [(d, row)]) = selectLocks d t ++ [row] := by
  induction t with
  | nil => simp [selectLocks]
  | cons e t ih => by_cases h : e.1 = d <;> simp [selectLocks, h, ih]

theorem selectLocks_append_ne (d2 d : String) (row : LockRow) (t : LockTable)
    (hne : d2 ≠ d) : selectLocks d2 (t ++ [(d, row)]) = selectLocks d2 t := by
  have h3 : ¬ d = d2 := fun hh => hne hh.symm
  induction t with
  | nil => simp [selectLocks, h3]
  | cons e t ih => by_cases h : e.1 = d2 <;> simp [selectLocks, h, ih]

theorem selectLocks_deleteLocks_self (d : String) (t : LockTable) :
    selectLocks d (deleteLocks d t) = [] := by
  induction t with
  | nil => simp [selectLocks, deleteLocks]
  | cons e t ih => by_cases h : e.1 = d <;> simp [selectLocks, deleteLocks, h, ih]

theorem selectLocks_deleteLocks_ne (d2 d : String) (t : LockTable) (hne : d2 ≠ d) :
    selectLocks d2 (deleteLocks d t) = selectLocks d2 t := by
  have h3 : ¬ d = d2 := fun hh => hne hh.symm
  induction t with
  | nil => simp [selectLocks, deleteLocks]
  | cons e t ih =>
    by_cases h1 : e.1 = d
    · have h2 : e.1 ≠ d2 := by rw [h1]; exact fun hh => hne hh.symm
      simp [selectLocks, deleteLocks, h1, h2, h3, ih]
    · by_cases h2 : e.1 = d2 <;> simp [selectLocks, deleteLocks, h1, h2, h3, hne, ih]

theorem selectLocks_touchLocks_self (d : String) (now : Int) (t : LockTable) :
    selectLocks d (touchLocks d now t) =
      (selectLocks d t).map (fun r => { r with locked_at := now }) := by
  induction t with
  | nil => simp [selectLocks, touchLocks]
  | cons e t ih => by_cases h : e.1 = d <;> simp [selectLocks, touchLocks, h, ih]

theorem selectLocks_touchLocks_ne (d2 d : String) (now : Int) (t : LockTable)
    (hne : d2 ≠ d) : selectLocks d2 (touchLocks d now t) = selectLocks d2 t := by
  have h3 : ¬ d = d2 := fun hh => hne hh.symm
  induction t with
  | nil => simp [selectLocks, touchLocks]
  | cons e t ih =>
    by_cases h1 : e.1 = d
    · have h2 : e.1 ≠ d2 := by rw [h1]; exact fun hh => hne hh.symm
      simp [selectLocks, touchLocks, h1, h2, h3, ih]
    · by_cases h2 : e.1 = d2 <;> simp [selectLocks, touchLocks, h1, h2, h3, hne, ih]

theorem deleteLocks_of_selectLocks_nil (d : String) (t : LockTable)
    (h : selectLocks d t = []) : deleteLocks d t = t := by
  induction t with
  | nil => rfl
  | cons e t ih =>
    by_cases h1 : e.1 = d
    · simp [selectLocks, h1] at h
    · simp [selectLocks, h1] at h
      simp [deleteLocks, h1, ih h]

/-- A lock table holds at most one row per document id (the state of the
`document_locks` table the endpoints maintain). -/
def atMostOneLock (t : LockTable) : Prop :=
  ∀ d, (selectLocks d t).length ≤ 1

/-- Actor `a` holds a non-expired lock on document `d` at time `now`: a row
for `d` exists with `user_id = a` whose age does not exceed the timeout. -/
def holdsLock (t : LockTable) (d a : String) (now : Int) : Prop :=
  ∃ row ∈ selectLocks d t, row.user_id = a ∧ ¬ now - row.locked_at > LOCK_TIMEOUT_MINUTES

theorem holders_unique (t : LockTable) (d a b : String) (now : Int)
    (hinv : atMostOneLock t) (ha : holdsLock t d a now) (hb : holdsLock t d b now) :
    a = b := by
  obtain ⟨ra, hra, hua, _⟩ := ha
  obtain ⟨rb, hrb, hub, _⟩ := hb
  have hlen := hinv d
  cases hsel : selectLocks d t with
  | nil => rw [hsel] at hra; simp at hra
  | cons x xs =>
    rw [hsel] at hra hrb hlen
    have hx : xs = [] := by
      cases xs with
      | nil => rfl
      | cons y ys =>
        exfalso
        simp only [List.length_cons] at hlen
        omega
    subst hx
    simp at hra hrb
    rw [← hua, ← hub, hra, hrb]

theorem lock_document_preserves_atMostOne (t : LockTable) (d u un : String)
    (now : Int) (hinv : atMostOneLock t) :
    atMostOneLock (lock_document t d u un now).2.1 := by
  intro d2
  cases hsel : selectLocks d t with
  | nil =>
    by_cases h : d2 = d
    · subst h
      simp [lock_document, hsel, selectLocks_append_self]
    · simp [lock_document, hsel, selectLocks_append_ne d2 d _ t h]
      exact hinv d2
  | cons row rest =>
    by_cases hexp : now - row.locked_at > LOCK_TIMEOUT_MINUTES
    · by_cases h : d2 = d
      · subst h
        simp [lock_document, hsel, hexp, selectLocks_append_self,
          selectLocks_deleteLocks_self]
      · simp [lock_document, hsel, hexp, selectLocks_append_ne d2 d _ _ h,
          selectLocks_deleteLocks_ne d2 d t h]
        exact hinv d2
    · by_cases huser : row.user_id ≠ u
      · simp [lock_document, hsel, hexp, huser]
        exact hinv d2
      · by_cases h : d2 = d
        · subst h
          simp [lock_document, hsel, hexp, huser, selectLocks_touchLocks_self]
          have := hinv d2
          rw [hsel] at this
          simpa [hsel] using this
        · simp [lock_document, hsel, hexp, huser, selectLocks_touchLocks_ne d2 d now t h]
          exact hinv d2

theorem lock_document_acquired_only_free (t : LockTable) (d u un : String)
    (now : Int) (hinv : atMostOneLock t)
    (hacq : (lock_document t d u un now).1 = LockResult.acquired) :
    ∀ a, ¬ holdsLock t d a now := by
  intro a hold
  obtain ⟨row0, hrow0, hua, hnotexp⟩ := hold
  cases hsel : selectLocks d t with
  | nil => rw [hsel] at hrow0; simp at hrow0
  | cons row rest =>
    have hlen := hinv d
    rw [hsel] at hlen
    have hrest : rest = [] := by
      cases rest with
      | nil => rfl
      | cons y ys =>
        exfalso
        simp only [List.length_cons] at hlen
        omega
    subst hrest
    rw [hsel] at hrow0
    simp at hrow0
    subst hrow0
    by_cases hexp : now - row0.locked_at > LOCK_TIMEOUT_MINUTES
    · exact hnotexp hexp
    · by_cases huser : row0.user_id ≠ u
      · simp [lock_document, hsel, hexp, huser] at hacq
      · simp [lock_document, hsel, hexp, huser] at hacq

/-- C1. Mutual exclusion: the lock endpoint keeps at most one row per
resource key, it returns Acquired only when no actor holds a non-expired
lock on the key beforehand (the row was either absent or expired and is
destroyed first), and in every table it produces two holders of non-expired
locks on the same key coincide. -/
theorem C1_mutual_exclusion (t : LockTable) (d u un : String) (now : Int)
    (hinv : atMostOneLock t) :
    atMostOneLock (lock_document t d u un now).2.1 ∧
    ((lock_document t d u un now).1 = LockResult.acquired →
      ∀ a, ¬ holdsLock t d a now) ∧
    (∀ d2 a b now2, holdsLock (lock_document t d u un now).2.1 d2 a now2 →
      holdsLock (lock_document t d u un now).2.1 d2 b now2 → a = b) :=
  ⟨lock_document_preserves_atMostOne t d u un now hinv,
   lock_document_acquired_only_free t d u un now hinv,
   fun d2 a b now2 ha hb =>
     holders_unique _ d2 a b now2
       (lock_document_preserves_atMostOne t d u un now hinv) ha hb⟩

/-- C1 witness: the mutual-exclusion theorem applied to a concrete one-row
table. -/
theorem C1_mutual_exclusion_witness :
    atMostOneLock (lock_document [("d", ⟨"a", "A", 0⟩)] "d" "b" "B" 31).2.1 ∧
    ((lock_document [("d", ⟨"a", "A", 0⟩)] "d" "b" "B" 31).1 = LockResult.acquired →
      ∀ a, ¬ holdsLock [("d", ⟨"a", "A", 0⟩)] "d" a 31) ∧
    (∀ d2 a b now2,
      holdsLock (lock_document [("d", ⟨"a", "A", 0⟩)] "d" "b" "B" 31).2.1 d2 a now2 →
      holdsLock (lock_document [("d", ⟨"a", "A", 0⟩)] "d" "b" "B" 31).2.1 d2 b now2 →
      a = b) :=
  C1_mutual_exclusion [("d", ⟨"a", "A", 0⟩)] "d" "b" "B" 31
    (by intro d2; simp only [selectLocks]; split <;> simp)

/-- C3 counterexample: a lock taken at time 0 with the 30 minute timeout is
NOT acquirable by a different actor at exactly `t0 + T`: the strict age check
`now - locked_at > LOCK_TIMEOUT_MINUTES` fails there and the endpoint returns
the Conflict response, not Acquired. -/
theorem C3_boundary_counterexample :
    (lock_document [("doc:42", ⟨"alice", "Alice", 0⟩)] "doc:42" "bob" "Bob"
      LOCK_TIMEOUT_MINUTES).1 = LockResult.conflict ⟨"alice", "Alice", 0⟩ := by
  decide

/-- C3 amended: at any time strictly later than `t0 + T` an acquire by a
different actor destroys the stale row and returns Acquired without an
explicit release. -/
theorem C3_ttl_expiry (t : LockTable) (d b bn : String) (row : LockRow)
    (rest : List LockRow) (now : Int) (hsel : selectLocks d t = row :: rest)
    (hdiff : row.user_id ≠ b) (hexp : now - row.locked_at > LOCK_TIMEOUT_MINUTES) :
    (lock_document t d b bn now).1 = LockResult.acquired ∧
    selectLocks d (lock_document t d b bn now).2.1 = [⟨b, bn, now⟩] := by
  constructor
  · simp [lock_document, hsel, hexp]
  · simp [lock_document, hsel, hexp, selectLocks_append_self,
      selectLocks_deleteLocks_self]

/-- C3 witness: the amended expiry theorem applied one minute past the
timeout. -/
theorem C3_ttl_expiry_witness :
    (lock_document [("d", ⟨"a", "A", 0⟩)] "d" "b" "B" 31).1 = LockResult.acquired ∧
    selectLocks "d" (lock_document [("d", ⟨"a", "A", 0⟩)] "d" "b" "B" 31).2.1
      = [⟨"b", "B", 31⟩] :=
  C3_ttl_expiry [("d", ⟨"a", "A", 0⟩)] "d" "b" "B" ⟨"a", "A", 0⟩ [] 31
    (by decide) (by decide) (by decide)

/-- C4 counterexample: force-unlocking an unlocked document does NOT succeed:
the endpoint returns success false ("Document was not locked") and publishes
no `lock_updated` event. -/
theorem C4_counterexample :
    (force_unlock_document ([] : LockTable) "doc:1").1 = false ∧
    (force_unlock_document ([] : LockTable) "doc:1").2.2 = [] := by
  decide

/-- C4 amended: ForceRelease removes the lock regardless of holder and
publishes a room-less `lock_updated` event with null holder when a lock row
exists; when the document is unlocked it returns failure, changes nothing and
publishes nothing. -/
theorem C4_force_release (t : LockTable) (d : String) :
    (selectLocks d t ≠ [] →
      (force_unlock_document t d).1 = true ∧
      selectLocks d (force_unlock_document t d).2.1 = [] ∧
      (force_unlock_document t d).2.2 = [broadcast_lock_update d none]) ∧
    (selectLocks d t = [] →
      (force_unlock_document t d).1 = false ∧
      (force_unlock_document t d).2.1 = t ∧
      (force_unlock_document t d).2.2 = []) := by
  constructor
  · intro h
    have hlen : (selectLocks d t).length ≠ 0 := by
      simpa [List.length_eq_zero] using h
    simp [force_unlock_document, hlen, selectLocks_deleteLocks_self]
  · intro h
    simp [force_unlock_document, h, deleteLocks_of_selectLocks_nil d t h]

/-- C4 witness: the amended force-release theorem applied to a locked and to
an unlocked table. -/
theorem C4_force_release_witness :
    ((force_unlock_document [("d", ⟨"a", "A", 0⟩)] "d").1 = true ∧
      selectLocks "d" (force_unlock_document [("d", ⟨"a", "A", 0⟩)] "d").2.1 = [] ∧
      (force_unlock_document [("d", ⟨"a", "A", 0⟩)] "d").2.2
        = [broadcast_lock_update "d" none]) ∧
    ((force_unlock_document ([] : LockTable) "d").1 = false ∧
      (force_unlock_document ([] : LockTable) "d").2.1 = [] ∧
      (force_unlock_document ([] : LockTable) "d").2.2 = []) :=
  ⟨(C4_force_release [("d", ⟨"a", "A", 0⟩)] "d").1 (by decide),
   (C4_force_release ([] : LockTable) "d").2 (by decide)⟩

/-- C6 counterexample: when the holder's own lock has already expired, a
re-acquire by the same actor does NOT return Refreshed with no broadcast: the
expiry check runs before the same-holder check, so the stale row is destroyed
and the endpoint returns Acquired together with a `lock_updated` broadcast. -/
theorem C6_counterexample :
    (lock_document [("d", ⟨"a", "A", 0⟩)] "d" "a" "A" 31).1 = LockResult.acquired ∧
    (lock_document [("d", ⟨"a", "A", 0⟩)] "d" "a" "A" 31).2.2 ≠ [] := by
  decide

/-- C6 amended: whenever the current holder re-acquires before expiry
(`now - locked_at` at most the timeout), the endpoint refreshes the
timestamp to `now`, returns Refreshed, never Conflict, and emits no
broadcast. -/
theorem C6_idempotent_refresh (t : LockTable) (d a an : String) (row : LockRow)
    (rest : List LockRow) (now : Int) (hsel : selectLocks d t = row :: rest)
    (hsame : row.user_id = a) (hfresh : ¬ now - row.locked_at > LOCK_TIMEOUT_MINUTES) :
    (lock_document t d a an now).1 = LockResult.refreshed ∧
    (lock_document t d a an now).2.1 = touchLocks d now t ∧
    (∀ r ∈ selectLocks d (lock_document t d a an now).2.1, r.locked_at = now) ∧
    (lock_document t d a an now).2.2 = [] := by
  have hne : ¬ row.user_id ≠ a := fun h => h hsame
  refine ⟨?r1, ?r2, ?r3, ?r4⟩
  case r1 => simp [lock_document, hsel, hfresh, hne]
  case r2 => simp [lock_document, hsel, hfresh, hne]
  case r3 =>
    intro r hr
    simp only [lock_document, hsel, hfresh, hne] at hr
    simp [selectLocks_touchLocks_self] at hr
    obtain ⟨r0, _, hr0⟩ := hr
    rw [← hr0]
  case r4 => simp [lock_document, hsel, hfresh, hne]

/-- C6 witness: the amended refresh theorem applied at the last non-expired
instant. -/
theorem C6_idempotent_refresh_witness :
    (lock_document [("d", ⟨"a", "A", 0⟩)] "d" "a" "A" 30).1 = LockResult.refreshed ∧
    (lock_document [("d", ⟨"a", "A", 0⟩)] "d" "a" "A" 30).2.1
      = touchLocks "d" 30 [("d", ⟨"a", "A", 0⟩)] ∧
    (∀ r ∈ selectLocks "d" (lock_document [("d", ⟨"a", "A", 0⟩)] "d" "a" "A" 30).2.1,
      r.locked_at = 30) ∧
    (lock_document [("d", ⟨"a", "A", 0⟩)] "d" "a" "A" 30).2.2 = [] :=
  C6_idempotent_refresh [("d", ⟨"a", "A", 0⟩)] "d" "a" "A" ⟨"a", "A", 0⟩ [] 30
    (by decide) (by decide) (by decide)

/-- C10. The heartbeat endpoint checks only existence and ownership, never
age: with no row it answers NotLocked, with a foreign holder NotHolder, and
for the holder it answers OK and resets `locked_at` to `now` — with no
hypothesis on the lock's age, so this holds in particular when
`now - locked_at` already exceeds the timeout, reviving the expired lock. -/
theorem C10_heartbeat_no_expiry_check (t : LockTable) (d u : String) (now : Int) :
    (selectLocks d t = [] →
      heartbeat_document t d u now = (HeartbeatResult.notLocked, t)) ∧
    (∀ row rest, selectLocks d t = row :: rest → row.user_id ≠ u →
      heartbeat_document t d u now = (HeartbeatResult.notHolder, t)) ∧
    (∀ row rest, selectLocks d t = row :: rest → row.user_id = u →
      (heartbeat_document t d u now).1 = HeartbeatResult.ok ∧
      (heartbeat_document t d u now).2 = touchLocks d now t ∧
      ∀ r ∈ selectLocks d (heartbeat_document t d u now).2, r.locked_at = now) := by
  refine ⟨?h1, ?h2, ?h3⟩
  case h1 => intro h; simp [heartbeat_document, h]
  case h2 => intro row rest h hne; simp [heartbeat_document, h, hne]
  case h3 =>
    intro row rest h hu
    have hne : ¬ row.user_id ≠ u := fun hh => hh hu
    refine ⟨by simp [heartbeat_document, h, hne], by simp [heartbeat_document, h, hne], ?goal⟩
    intro r hr
    simp only [heartbeat_document, h, hne] at hr
    simp [selectLocks_touchLocks_self] at hr
    obtain ⟨r0, _, hr0⟩ := hr
    rw [← hr0]

/-- C10 witness: heartbeat on a lock whose age (1000) far exceeds the 30
minute timeout still answers OK and resets the timestamp; plus the NotLocked
and NotHolder cases. -/
theorem C10_heartbeat_witness :
    (heartbeat_document [("d", ⟨"a", "A", 0⟩)] "d" "a" 1000).1 = HeartbeatResult.ok ∧
    (heartbeat_document [("d", ⟨"a", "A", 0⟩)] "d" "a" 1000).2
      = touchLocks "d" 1000 [("d", ⟨"a", "A", 0⟩)] ∧
    (∀ r ∈ selectLocks "d" (heartbeat_document [("d", ⟨"a", "A", 0⟩)] "d" "a" 1000).2,
      r.locked_at = 1000) ∧
    heartbeat_document ([] : LockTable) "d" "a" 1000
      = (HeartbeatResult.notLocked, ([] : LockTable)) ∧
    heartbeat_document [("d", ⟨"b", "B", 0⟩)] "d" "a" 1000
      = (HeartbeatResult.notHolder, [("d", ⟨"b", "B", 0⟩)]) :=
  ⟨((C10_heartbeat_no_expiry_check [("d", ⟨"a", "A", 0⟩)] "d" "a" 1000).2.2
      ⟨"a", "A", 0⟩ [] (by decide) (by decide)).1,
   ((C10_heartbeat_no_expiry_check [("d", ⟨"a", "A", 0⟩)] "d" "a" 1000).2.2
      ⟨"a", "A", 0⟩ [] (by decide) (by decide)).2.1,
   ((C10_heartbeat_no_expiry_check [("d", ⟨"a", "A", 0⟩)] "d" "a" 1000).2.2
      ⟨"a", "A", 0⟩ [] (by decide) (by decide)).2.2,
   (C10_heartbeat_no_expiry_check ([] : LockTable) "d" "a" 1000).1 (by decide),
   (C10_heartbeat_no_expiry_check [("d", ⟨"b", "B", 0⟩)] "d" "a" 1000).2.1
      ⟨"b", "B", 0⟩ [] (by decide) (by decide)⟩

/-- C5. Streaming termination: once `end_streaming` has returned true, every
subsequent `stream_chunk` on that session returns false (InvalidSession) —
both during the grace period, while the ended session is still in the table,
and after `purge_session` has removed it. -/
theorem C5_streaming_termination (ss : Sessions) (session_id : String)
    (hend : (end_streaming ss session_id).1 = true) :
    (∀ text pos,
      (stream_chunk (end_streaming ss session_id).2.1 session_id text pos).1 = false) ∧
    (∀ text pos,
      (stream_chunk (purge_session (end_streaming ss session_id).2.1 session_id)
        session_id text pos).1 = false) := by
  cases hs : ss session_id with
  | none => rw [end_streaming, hs] at hend; simp at hend
  | some s =>
    constructor
    · intro text pos
      simp [end_streaming, hs, stream_chunk]
    · intro text pos
      simp [end_streaming, hs, stream_chunk, purge_session]

/-- Concrete streaming session used by the C5 witness. -/
def c5_session : StreamingSession :=
  { session_id := "s1", document_id := "42", user_id := "u1", username := "U1",
    agent_name := "Claude", start_position := 0, current_position := 0 }

/-- Concrete session table used by the C5 witness. -/
def c5_sessions : Sessions := fun k => if k = "s1" then some c5_session else none

/-- C5 witness: the termination theorem applied to a concrete active
session. -/
theorem C5_streaming_termination_witness :
    (stream_chunk (end_streaming c5_sessions "s1").2.1 "s1" "hello" none).1 = false ∧
    (stream_chunk (purge_session (end_streaming c5_sessions "s1").2.1 "s1")
      "s1" "hello" none).1 = false :=
  ⟨(C5_streaming_termination c5_sessions "s1" (by decide)).1 "hello" none,
   (C5_streaming_termination c5_sessions "s1" (by decide)).2 "hello" none⟩

/-- C9 counterexample: the `lock_updated` broadcast of a successful acquire is
emitted with NO room (reaching every connected client), while the presence
events for the same document go to room `doc_42` — lock events are not
delivered to the room derived from the resource key. -/
theorem C9_counterexample :
    (lock_document ([] : LockTable) "42" "alice" "Alice" 0).2.2.map Emit.room
      = [none] ∧
    (join_document {} "c1" "42" "u1" "U1" false none 0).2.2.map Emit.room
      = [some (doc_room "42"), some (doc_room "42")] ∧
    (none : Option String) ≠ some (doc_room "42") := by
  decide

/-- C9 amended: every `lock_updated` event published by acquire, release and
force-release is room-less (a global emit to all connected clients) and
carries the document id in its payload, whereas presence and streaming events
are addressed to the room `doc_<id>` of their document. -/
theorem C9_broadcast_rooms (t : LockTable) (st : CollabState) (ss : Sessions)
    (d u un sid text session_id : String) (now : Int) (pos : Option Int) :
    (∀ e ∈ (lock_document t d u un now).2.2, e.room = none ∧ e.document_id = d) ∧
    (∀ e ∈ (unlock_document t d u).2.2, e.room = none ∧ e.document_id = d) ∧
    (∀ e ∈ (force_unlock_document t d).2.2, e.room = none ∧ e.document_id = d) ∧
    (∀ e ∈ (leave_document st sid d).2, e.room = some (doc_room e.document_id)) ∧
    (∀ e ∈ (stream_chunk ss session_id text pos).2.2,
      e.room = some (doc_room e.document_id)) ∧
    (∀ e ∈ (end_streaming ss session_id).2.2,
      e.room = some (doc_room e.document_id)) := by
  refine ⟨?l1, ?l2, ?l3, ?l4, ?l5, ?l6⟩
  case l1 =>
    intro e he
    cases hsel : selectLocks d t with
    | nil =>
      simp [lock_document, hsel, broadcast_lock_update] at he
      simp [he]
    | cons row rest =>
      by_cases hexp : now - row.locked_at > LOCK_TIMEOUT_MINUTES
      · simp [lock_document, hsel, hexp, broadcast_lock_update] at he
        simp [he]
      · by_cases huser : row.user_id ≠ u <;>
          simp [lock_document, hsel, hexp, huser, broadcast_lock_update] at he <;>
          simp [he]
  case l2 =>
    intro e he
    by_cases hc : countUserLocks d u t = 0 <;>
      simp [unlock_document, hc, broadcast_lock_update] at he <;>
      simp [he]
  case l3 =>
    intro e he
    by_cases hc : (selectLocks d t).length = 0 <;>
      simp [force_unlock_document, hc, broadcast_lock_update] at he <;>
      simp [he]
  case l4 =>
    intro e he
    cases h1 : dlookup d st.document_presence with
    | none => simp [leave_document, h1] at he
    | some roster =>
      cases h2 : dlookup sid roster with
      | none => simp [leave_document, h1, h2] at he
      | some p =>
        simp [leave_document, h1, h2] at he
        rcases he with he | he <;> simp [he]
  case l5 =>
    intro e he
    cases hs : ss session_id with
    | none => simp [stream_chunk, hs] at he
    | some s =>
      by_cases ha : s.is_active <;> simp [stream_chunk, hs, ha] at he
      simp [he]
  case l6 =>
    intro e he
    cases hs : ss session_id with
    | none => simp [end_streaming, hs] at he
    | some s =>
      simp [end_streaming, hs] at he
      simp [he]

/-- C9 witness: the room discipline theorem applied to concrete lock,
presence and streaming operations. -/
theorem C9_broadcast_rooms_witness :
    (broadcast_lock_update "d" none).room = none ∧
    (broadcast_lock_update "d" none).document_id = "d" :=
  (C9_broadcast_rooms [("d", ⟨"a", "A", 0⟩)] {} c5_sessions "d" "b" "B" "c1" "x" "s1" 0
      none).2.2.1 (broadcast_lock_update "d" none) (by decide)

/-! ## Presence scenarios -/

/-- First join of the presence-dedup scenario of the spec: connection c1,
human user u1, in room task:7. -/
def c2_join1 : Option (List UserPresence) × CollabState × List Emit :=
  join_document {} "c1" "task:7" "u1" "User1" false none 0

/-- Second join of the scenario: the same human under a new connection id. -/
def c2_join2 : Option (List UserPresence) × CollabState × List Emit :=
  join_document c2_join1.2.1 "c2" "task:7" "u1" "User1" false none 1

/-- Variant state with a bystander occupant u0, so that the eviction performed
by a later join does not empty the room: u0 on c0, then u1 on c1. -/
def c2_bystander : CollabState :=
  (join_document (join_document {} "c0" "task:7" "u0" "Other" false none 0).2.1
    "c1" "task:7" "u1" "User1" false none 1).2.1

/-- The bystander variant after the agent join of the scenario: the same
actor id u1 joins as an agent on connection c3. -/
def c2_after_agent : CollabState :=
  (join_document c2_bystander "c3" "task:7" "u1" "User1" true (some "Claude") 2).2.1

/-- C2. The presence-dedup scenario fails on the code in two ways. First, the
second `Join(task:7, c2, u1)` evicts c1, which empties the room, deletes its
dict, and makes `document_presence[document_id][sid] = presence` raise
KeyError (modelled as a `none` result), leaving the roster empty instead of
length 1. Second, the eviction in `join_document` matches on `user_id` alone,
ignoring `is_agent`: in the non-crashing bystander variant the agent join
evicts the human connection sharing its actor id, so human and agent do not
coexist — the deduplicated roster holds only `(u0, human)` and
`(u1, agent)`, the `(u1, human)` occupant is gone. -/
theorem C2_presence_dedup_bug :
    c2_join1.1 ≠ none ∧
    c2_join2.1 = none ∧
    get_deduplicated_users c2_join2.2.1 "task:7" = [] ∧
    (get_deduplicated_users c2_after_agent "task:7").map
      (fun p => (p.user_id, p.is_agent)) = [("u0", false), ("u1", true)] := by
  decide

/-- States of the C7 counterexample: u1 joins, u2 joins, u1 leaves (the room
stays non-empty), u1 rejoins under a fresh connection id. -/
def c7_s1 : CollabState := (join_document {} "c1" "d" "u1" "U1" false none 0).2.1

/-- Second join of the C7 counterexample. -/
def c7_s2 : CollabState := (join_document c7_s1 "c2" "d" "u2" "U2" false none 1).2.1

/-- State after u1's leave in the C7 counterexample. -/
def c7_s3 : CollabState := (leave_document c7_s2 "c1" "d").1

/-- State after u1's rejoin in the C7 counterexample. -/
def c7_s4 : CollabState := (join_document c7_s3 "c3" "d" "u1" "U1" false none 2).2.1

/-- C7 counterexample: u1 is first assigned palette color 0 ("#e6194b");
after leaving and rejoining while u2 keeps the room non-empty, u1 receives
the next round-robin color ("#4363d8") instead — the color does not persist
for the lifetime of the non-empty room across a leave and rejoin. -/
theorem C7_counterexample :
    findUserColor "u1" ((dlookup "d" c7_s1.document_presence).getD []) = some "#e6194b" ∧
    (dlookup "d" c7_s3.document_presence).getD [] ≠ [] ∧
    findUserColor "u1" ((dlookup "d" c7_s4.document_presence).getD []) = some "#4363d8" ∧
    ("#4363d8" : String) ≠ "#e6194b" := by
  decide

/-- C7 amended: a color persists only while some connection with the actor id
remains present (a color lookup returns the stored color and leaves the state
unchanged); the round-robin index is discarded exactly when the room becomes
empty (a leave that empties the roster erases it, one that does not leaves it
untouched); and agents with a non-empty agent name get the fixed agent-table
color keyed by the lower-cased name, independent of the round-robin state. -/
theorem C7_color_stability (st : CollabState) (document_id user_id sid an : String)
    (roster : List (String × UserPresence)) (c : String) (p : UserPresence) :
    (dlookup document_id st.document_presence = some roster →
      findUserColor user_id roster = some c →
      get_user_color st document_id user_id false none = (c, st)) ∧
    (an ≠ "" →
      get_user_color st document_id user_id true (some an)
        = (AGENT_COLORS (lowerStr an), st)) ∧
    (dlookup document_id st.document_presence = some roster →
      dlookup sid roster = some p → derase sid roster = [] →
      (leave_document st sid document_id).1.document_color_index
        = derase document_id st.document_color_index) ∧
    (dlookup document_id st.document_presence = some roster →
      dlookup sid roster = some p → derase sid roster ≠ [] →
      (leave_document st sid document_id).1.document_color_index
        = st.document_color_index) := by
  refine ⟨?p1, ?p2, ?p3, ?p4⟩
  case p1 => intro h1 h2; simp [get_user_color, h1, h2]
  case p2 => intro h; simp [get_user_color, h]
  case p3 => intro h1 h2 h3; simp [leave_document, h1, h2, h3]
  case p4 =>
    intro h1 h2 h3
    simp [leave_document, h1, h2, List.isEmpty_iff, h3]

/-- Concrete two-occupant state for the C7 witness. -/
def c7_witness_state : CollabState :=
  { document_presence :=
      [("d", [("c1", { user_id := "u1", username := "U1", color := "#e6194b" }),
              ("c2", { user_id := "u2", username := "U2", color := "#3cb44b" })])],
    document_color_index := [("d", 2)] }

/-- Concrete single-occupant state for the C7 witness. -/
def c7_single_state : CollabState :=
  { document_presence :=
      [("d", [("c1", { user_id := "u1", username := "U1", color := "#e6194b" })])],
    document_color_index := [("d", 1)] }

/-- C7 witness: the amended color-stability theorem applied to concrete
states. -/
theorem C7_color_stability_witness :
    get_user_color c7_witness_state "d" "u1" false none = ("#e6194b", c7_witness_state) ∧
    get_user_color c7_witness_state "d" "u1" true (some "Claude")
      = (AGENT_COLORS (lowerStr "Claude"), c7_witness_state) ∧
    (leave_document c7_single_state "c1" "d").1.document_color_index
      = derase "d" c7_single_state.document_color_index ∧
    (leave_document c7_witness_state "c2" "d").1.document_color_index
      = c7_witness_state.document_color_index :=
  ⟨(C7_color_stability c7_witness_state "d" "u1" "c1" "Claude"
      ((dlookup "d" c7_witness_state.document_presence).getD [])
      "#e6194b" { user_id := "u1", username := "U1", color := "#e6194b" }).1
      (by decide) (by decide),
   (C7_color_stability c7_witness_state "d" "u1" "c1" "Claude"
      ((dlookup "d" c7_witness_state.document_presence).getD [])
      "#e6194b" { user_id := "u1", username := "U1", color := "#e6194b" }).2.1
      (by decide),
   (C7_color_stability c7_single_state "d" "u1" "c1" "Claude"
      ((dlookup "d" c7_single_state.document_presence).getD [])
      "#e6194b" { user_id := "u1", username := "U1", color := "#e6194b" }).2.2.1
      (by decide) (by decide) (by decide),
   (C7_color_stability c7_witness_state "d" "u2" "c2" "Claude"
      ((dlookup "d" c7_witness_state.document_presence).getD [])
      "#3cb44b" { user_id := "u2", username := "U2", color := "#3cb44b" }).2.2.2
      (by decide) (by decide) (by decide)⟩

/-- Presence state for the C8 scenario: connection c1 of user u1 is present
in document d1. -/
def c8_presence : CollabState :=
  { document_presence :=
      [("d1", [("c1", { user_id := "u1", username := "U1", color := "#e6194b" })])],
    document_color_index := [("d1", 1)] }

/-- System state for the C8 scenario: c1 present in d1 and u1 holding the d1
lock taken at time 0. -/
def c8_state : SystemState :=
  { collab := c8_presence, document_locks := [("d1", ⟨"u1", "U1", 0⟩)] }

/-- C8. The transport-disconnect handler never removes presence: disconnecting
c1 leaves the collaborative state untouched (c1 is still present in d1), it
preserves the non-expired lock (age 10 at timeout 30) and deletes only
expired rows (age 31); `leave_all_documents` — which would have emptied the
roster — is never invoked by it. -/
theorem C8_disconnect_keeps_presence :
    (disconnect c8_state "c1" 10).collab = c8_presence ∧
    dlookup "c1"
      ((dlookup "d1" (disconnect c8_state "c1" 10).collab.document_presence).getD [])
      ≠ none ∧
    (disconnect c8_state "c1" 10).document_locks = [("d1", ⟨"u1", "U1", 0⟩)] ∧
    (disconnect c8_state "c1" 31).document_locks = [] ∧
    (leave_all_documents c8_presence "c1").1.document_presence = [] := by
  decide

end Markd
